import Mathlib

/-!
Verification of the iniconfig INI parser against its specification.

The development embeds the repository shallowly in Lean:

* The exception class in src/iniconfig/exceptions.py is embedded as the
  structure ParseError below, together with its constructor
  ParseError.init and its rendering function ParseError.toStr.  Python
  attributes are dynamically typed, so the stored attributes are
  modelled with the dynamic value type PyVal, and the string formatting
  of a dynamic value plus the integer addition inside the format string
  are modelled by pyFormat and pyAdd.  pyAdd returns an Except value
  because adding an integer to a Python string raises a TypeError.

* The tokenizer, the document builder and the query surface live in
  modules of the repository that are not part of the given sources, so
  they are modelled from the specification; each such definition
  carries a doc comment starting with: Modelled from the spec.
-/

/-- A dynamic Python value: the embedding only needs strings and
integers, which are the types of the three constructor arguments of the
exception class. -/
inductive PyVal where
  | str (s : String)
  | int (n : Int)
deriving DecidableEq

/-- Embedding of the class ParseError of src/iniconfig/exceptions.py.
The field args models the tuple passed to the Exception base class in
the line super().  The fields path, lineno and msg model the three
instance attributes; they hold PyVal values because the assignments in
the source store values whose types differ from the declared
annotations. -/
structure ParseError where
  args : PyVal × PyVal × PyVal
  path : PyVal
  lineno : PyVal
  msg : PyVal
deriving DecidableEq

/-- Embedding of the constructor of ParseError, exactly as the source
writes it: the base class receives the tuple (path, lineno, msg), and
then the attribute assignments store msg into path, path into lineno
and lineno into msg. -/
def ParseError.init (path : String) (lineno : Int) (msg : String) : ParseError :=
  { args := (PyVal.str path, PyVal.int lineno, PyVal.str msg)
    path := PyVal.str msg
    lineno := PyVal.str path
    msg := PyVal.int lineno }

/-- Python addition of two dynamic values: defined on two integers,
and a TypeError on every other combination, as in CPython for int and
str operands. -/
def pyAdd : PyVal → PyVal → Except String PyVal
  | PyVal.int a, PyVal.int b => Except.ok (PyVal.int (a + b))
  | _, _ => Except.error "TypeError"

/-- Interpolation of a dynamic value into a format string. -/
def pyFormat : PyVal → String
  | PyVal.str s => s
  | PyVal.int n => toString n

/-- Embedding of the method that renders a ParseError: the format
string joins path, lineno plus one, and msg.  The addition lineno plus
one is dynamic, hence the result is an Except value: it is an error
when the stored lineno is not an integer. -/
def ParseError.toStr (e : ParseError) : Except String String :=
  match pyAdd e.lineno (PyVal.int 1) with
  | Except.error err => Except.error err
  | Except.ok l =>
      Except.ok (pyFormat e.path ++ ":" ++ pyFormat l ++ ": " ++ pyFormat e.msg)

/-- C1: the constructor does not store its three arguments unchanged:
at the input path filename, lineno 0, msg hello, the path attribute
receives the message, the lineno attribute receives the path and the
msg attribute receives the line number, each differing from the value
the claim requires. -/
theorem parseError_init_swaps_fields :
    (ParseError.init "filename" 0 "hello").path = PyVal.str "hello" ∧
    (ParseError.init "filename" 0 "hello").lineno = PyVal.str "filename" ∧
    (ParseError.init "filename" 0 "hello").msg = PyVal.int 0 ∧
    (ParseError.init "filename" 0 "hello").path ≠ PyVal.str "filename" ∧
    (ParseError.init "filename" 0 "hello").lineno ≠ PyVal.int 0 ∧
    (ParseError.init "filename" 0 "hello").msg ≠ PyVal.str "hello" := by
  refine ⟨rfl, rfl, rfl, ?_, ?_, ?_⟩ <;> decide

/-- C2: rendering the exception built from path filename, lineno 0 and
msg hello does not produce the string the claim requires: the stored
lineno attribute holds the path string, so the addition of one raises a
TypeError instead. -/
theorem parseError_toStr_raises_typeError :
    (ParseError.init "filename" 0 "hello").toStr = Except.error "TypeError" ∧
    (ParseError.init "filename" 0 "hello").toStr ≠ Except.ok "filename:1: hello" := by
  exact ⟨rfl, fun h => Except.noConfusion h⟩

/-- C10: the tuple handed to the Exception base class lists the three
constructor arguments unchanged and in order, independently of the
swapped attribute assignments that follow. -/
theorem parseError_init_args_in_order (p : String) (n : Int) (m : String) :
    (ParseError.init p n m).args = (PyVal.str p, PyVal.int n, PyVal.str m) := rfl

/-! The line tokenizer.  The module holding it is not among the given
sources, so everything below is modelled from the specification, with
the record shapes fixed by the test suite of the repository. -/

/-- Modelled from the spec: the structured parse failure produced by
the missing tokenizer and builder modules, carrying the source name,
the zero-based line number of the offending physical line, and a short
message. -/
structure ParseErr where
  path : String
  lineno : Nat
  msg : String
deriving DecidableEq

/-- Whitespace test matching the Python str.strip family. -/
def isSpace (c : Char) : Bool :=
  c = ' ' ∨ c = '\t' ∨ c = '\n' ∨ c = '\r' ∨ c = '\x0b' ∨ c = '\x0c'

/-- Remove leading whitespace characters. -/
def lstrip (l : List Char) : List Char := l.dropWhile isSpace

/-- Remove trailing whitespace characters. -/
def rstrip (l : List Char) : List Char := (l.reverse.dropWhile isSpace).reverse

/-- Remove whitespace on both ends. -/
def strip (l : List Char) : List Char := rstrip (lstrip l)

/-- A comment opener is a hash or a semicolon. -/
def isCommentChar (c : Char) : Bool := c = '#' ∨ c = ';'

/-- Modelled from the spec: truncate a line at the first comment
character that sits at the start of the line, after only whitespace, or
immediately after a whitespace character.  The flag records whether the
previous character permits a comment to open here; it starts true. -/
def dropComment : Bool → List Char → List Char
  | _, [] => []
  | prevWs, c :: rest =>
      if isCommentChar c ∧ prevWs then []
      else c :: dropComment (isSpace c) rest

/-- Modelled from the spec: the comment-stripped, right-trimmed content
of a physical line; the line is dropped when this is empty. -/
def lineContent (l : List Char) : List Char := rstrip (dropComment true l)

/-- True when the raw line opens with a whitespace character: the
marker of a continuation line. -/
def startsWithSpace : List Char → Bool
  | [] => false
  | c :: _ => isSpace c

/-- Modelled from the spec: one line record of the tokenizer output, a
section header or a key-value pair; each key-value record carries the
name of the section current at its line, or none before any header. -/
inductive LineRecord where
  | sectionStart (lineno : Nat) (name : String)
  | keyValue (lineno : Nat) (sect : Option String) (key : String) (value : String)
deriving DecidableEq

/-- Split a character list at the first occurrence of the given
character, dropping that character; none when it does not occur. -/
def splitAtChar (c : Char) : List Char → Option (List Char × List Char)
  | [] => none
  | x :: xs =>
      if x = c then some ([], xs)
      else (splitAtChar c xs).map (fun p => (x :: p.1, p.2))

/-- A key-value separator is an equals sign or a colon. -/
def isSep (c : Char) : Bool := c = '=' ∨ c = ':'

/-- Index of the leftmost separator of a line, scanning left to right;
none when the line holds no separator. -/
def findSepIdx : List Char → Option Nat
  | [] => none
  | c :: t => if isSep c then some 0 else (findSepIdx t).map (fun n => n + 1)

/-- Modelled from the spec: classify a stripped non-continuation line.
A line opening with a left bracket is a section header whose name is
the trimmed text up to the matching right bracket, rejecting an empty
name and a missing bracket; any other line splits at the leftmost
separator into a trimmed key and a trimmed value, and is rejected when
no separator occurs.  Returns the produced record together with the
section cursor after the line. -/
def classifyLine (path : String) (lineno : Nat) (cur : Option String)
    (s : List Char) : Except ParseErr (LineRecord × Option String) :=
  if s.headD ' ' = '[' then
    match splitAtChar ']' s.tail with
    | some (inner, _) =>
        let name := (strip inner).asString
        if name = "" then Except.error ⟨path, lineno, "empty section name"⟩
        else Except.ok (LineRecord.sectionStart lineno name, some name)
    | none => Except.error ⟨path, lineno, "unterminated section header"⟩
  else
    match findSepIdx s with
    | some i =>
        Except.ok (LineRecord.keyValue lineno cur
          ((strip (s.take i)).asString) ((strip (s.drop (i + 1))).asString), cur)
    | none => Except.error ⟨path, lineno, "unexpected line"⟩

/-- Modelled from the spec: the running state of the tokenizer, the
records emitted so far and the name of the current section. -/
structure TokState where
  records : List LineRecord
  cur : Option String
deriving DecidableEq

/-- Modelled from the spec: process one physical line.  A line whose
comment-stripped content is empty is dropped.  Otherwise a line opening
with whitespace is a continuation: its stripped content is appended to
the value of the last emitted record, separated by a single newline
character when that value is nonempty, and it is a failure when no
record exists yet or the last record is a section header.  Every other
line is classified as a section header or a key-value pair. -/
def tokStep (path : String) (lineno : Nat) (st : TokState) (l : List Char) :
    Except ParseErr TokState :=
  if lineContent l = [] then Except.ok st
  else if startsWithSpace l then
    match st.records.getLast? with
    | some (LineRecord.keyValue ln sec k v) =>
        let add := (strip (lineContent l)).asString
        Except.ok ⟨st.records.dropLast ++
          [LineRecord.keyValue ln sec k (if v = "" then add else v ++ "\n" ++ add)],
          st.cur⟩
    | _ => Except.error ⟨path, lineno, "unexpected value continuation"⟩
  else
    match classifyLine path lineno st.cur (lstrip (lineContent l)) with
    | Except.ok (r, newcur) => Except.ok ⟨st.records ++ [r], newcur⟩
    | Except.error e => Except.error e

/-- Modelled from the spec: run the tokenizer over the numbered lines,
threading the state and stopping at the first failure. -/
def parseLinesGo (path : String) (lineno : Nat) (st : TokState) :
    List (List Char) → Except ParseErr (List LineRecord)
  | [] => Except.ok st.records
  | l :: rest =>
      match tokStep path lineno st l with
      | Except.ok st2 => parseLinesGo path (lineno + 1) st2 rest
      | Except.error e => Except.error e

/-- Modelled from the spec: tokenize a full source, already split into
physical lines, starting at line zero with no records and no current
section. -/
def parse_lines (path : String) (lines : List (List Char)) :
    Except ParseErr (List LineRecord) :=
  parseLinesGo path 0 ⟨[], none⟩ lines

/-- Split a character stream at newline characters. -/
def splitLinesChars (acc : List Char) : List Char → List (List Char)
  | [] => [acc.reverse]
  | c :: rest =>
      if c = '\n' then acc.reverse :: splitLinesChars [] rest
      else splitLinesChars (c :: acc) rest

/-- Split a source text into its physical lines. -/
def splitLines (data : String) : List (List Char) := splitLinesChars [] data.data

/-- Tokenize a source text given as a string. -/
def parseTokens (path : String) (data : String) : Except ParseErr (List LineRecord) :=
  parse_lines path (splitLines data)

/-! The document builder and the query surface, likewise modelled from
the specification because their modules are not among the given
sources. -/

/-- Modelled from the spec: one section of the document, holding its
name, the zero-based line number of its header, and the keys in
insertion order, each with its value and its zero-based line number. -/
structure SectionData where
  name : String
  lineno : Nat
  entries : List (String × String × Nat)
deriving DecidableEq

/-- Look up a key among the entries of a section. -/
def lookupEntries : List (String × String × Nat) → String → Option (String × Nat)
  | [], _ => none
  | (k, v, ln) :: rest, key => if k = key then some (v, ln) else lookupEntries rest key

/-- Look up a key in a section, returning its value and line number. -/
def SectionData.lookup (sd : SectionData) (k : String) : Option (String × Nat) :=
  lookupEntries sd.entries k

/-- True when the section already holds the key. -/
def SectionData.hasKey (sd : SectionData) (k : String) : Bool :=
  sd.entries.any (fun e => e.1 = k)

/-- Modelled from the spec: the document, the source name and the
sections in first-appearance order. -/
structure Document where
  path : String
  sections : List SectionData
deriving DecidableEq

/-- Find the section with the given name. -/
def findSection : List SectionData → String → Option SectionData
  | [], _ => none
  | sd :: rest, nm => if sd.name = nm then some sd else findSection rest nm

/-- Find a section of the document by name. -/
def Document.sectionOf (d : Document) (nm : String) : Option SectionData :=
  findSection d.sections nm

/-- Append the key to the section with the given name; none when the
key already exists in that section, or when no section carries the
name. -/
def addEntry (secs : List SectionData) (sec k v : String) (ln : Nat) :
    Option (List SectionData) :=
  match secs with
  | [] => none
  | sd :: rest =>
      if sd.name = sec then
        if sd.hasKey k then none
        else some ({ sd with entries := sd.entries ++ [(k, v, ln)] } :: rest)
      else (addEntry rest sec k v ln).map (fun r => sd :: r)

/-- Modelled from the spec: fold one line record into the sections
built so far.  A header whose name already exists fails with the
duplicate section message; a key-value record with no section fails
with the missing header message; a key already present in its section
fails with the duplicate name message. -/
def buildStep (path : String) (secs : List SectionData) :
    LineRecord → Except ParseErr (List SectionData)
  | LineRecord.sectionStart ln name =>
      if secs.any (fun s => s.name = name) then
        Except.error ⟨path, ln, "duplicate section"⟩
      else Except.ok (secs ++ [⟨name, ln, []⟩])
  | LineRecord.keyValue ln none _ _ =>
      Except.error ⟨path, ln, "no section header defined"⟩
  | LineRecord.keyValue ln (some sec) k v =>
      match addEntry secs sec k v ln with
      | some secs2 => Except.ok secs2
      | none => Except.error ⟨path, ln, "duplicate name"⟩

/-- Run the builder over the record sequence. -/
def buildGo (path : String) (secs : List SectionData) :
    List LineRecord → Except ParseErr (List SectionData)
  | [] => Except.ok secs
  | r :: rest =>
      match buildStep path secs r with
      | Except.ok secs2 => buildGo path secs2 rest
      | Except.error e => Except.error e

/-- Modelled from the spec: build a document from a source name and an
in-memory text, tokenizing and then folding the records. -/
def iniConfigOf (path : String) (data : String) : Except ParseErr Document :=
  match parseTokens path data with
  | Except.error e => Except.error e
  | Except.ok records =>
      match buildGo path [] records with
      | Except.error e => Except.error e
      | Except.ok secs => Except.ok ⟨path, secs⟩

/-- Modelled from the spec: the line query of the query surface.  The
spec text reads the header line number of the section, or the recorded
line number of the key; the test suite of the repository
(test_iniconfig_lineof) fixes the returned values as the stored
zero-based line number plus one, so this definition returns the stored
number plus one, and the not-found signal when the section, or the key
when one is given, is absent. -/
def Document.lineof (d : Document) (sec : String) (key : Option String) : Option Nat :=
  match d.sectionOf sec with
  | none => none
  | some sd =>
      match key with
      | none => some (sd.lineno + 1)
      | some k => (sd.lookup k).map (fun p => p.2 + 1)

/-- Modelled from the spec: the section-scoped line query, delegating
to the recorded line number of the key in this section, plus one as
fixed by the test suite. -/
def SectionData.lineofKey (sd : SectionData) (k : String) : Option Nat :=
  (sd.lookup k).map (fun p => p.2 + 1)

/-- Modelled from the spec: the get query.  When the key exists in the
section the stored string is passed through the caller-supplied
conversion; when the section or the key is absent the default is
returned unchanged and the conversion is not invoked. -/
def Document.get {α : Type} (d : Document) (sec key : String)
    (default : Option α) (convert : String → α) : Option α :=
  match d.sectionOf sec with
  | none => default
  | some sd =>
      match sd.lookup key with
      | none => default
      | some (v, _) => some (convert v)

/-- Modelled from the spec: usage errors of the document constructor,
a kind distinct from ParseErr, raised synchronously before any parsing
begins. -/
inductive UsageError where
  | typeError
deriving DecidableEq

/-- Modelled from the spec: the document constructor entry points.
Exactly one of an explicit in-memory text or a path to read may be
supplied; supplying both, supplying neither, or supplying a non-string
dynamic value as the in-memory text is a usage error of the distinct
kind UsageError, returned in the outer layer before any parsing; the
function readFile stands for the thin file-reading wrapper. -/
def iniConfigCtor (name : String) (text : Option PyVal) (pathToRead : Option String)
    (readFile : String → String) : Except UsageError (Except ParseErr Document) :=
  match text, pathToRead with
  | some (PyVal.str d), none => Except.ok (iniConfigOf name d)
  | some _, none => Except.error UsageError.typeError
  | none, some p => Except.ok (iniConfigOf name (readFile p))
  | some _, some _ => Except.error UsageError.typeError
  | none, none => Except.error UsageError.typeError

/-! Helper lemmas. -/

/-- The separator scan returns the index of the leftmost separator. -/
theorem findSepIdx_eq_some : ∀ (s : List Char) (i : Nat), i < s.length →
    isSep (s.getD i ' ') = true →
    (∀ j, j < i → isSep (s.getD j ' ') = false) →
    findSepIdx s = some i
  | [], i, hi, _, _ => absurd hi (Nat.not_lt_zero i)
  | c :: _, 0, _, hp, _ => by
      have hc : isSep c = true := hp
      simp [findSepIdx, hc]
  | c :: t, n + 1, hi, hp, hmin => by
      have hc : isSep c = false := hmin 0 (Nat.succ_pos n)
      have ht : findSepIdx t = some n :=
        findSepIdx_eq_some t n (Nat.lt_of_succ_lt_succ hi) hp
          (fun j hj => hmin (j + 1) (Nat.succ_lt_succ hj))
      simp [findSepIdx, hc, ht]

/-- Appending a key that a section already holds fails. -/
theorem addEntry_none_of_dup : ∀ (secs : List SectionData) (sec k v : String) (ln : Nat)
    (sd : SectionData), findSection secs sec = some sd → sd.hasKey k = true →
    addEntry secs sec k v ln = none
  | [], _, _, _, _, _, h, _ => by simp [findSection] at h
  | s0 :: rest, sec, k, v, ln, sd, h, hk => by
      by_cases hn : s0.name = sec
      · simp [findSection, hn] at h
        subst h
        simp [addEntry, hn, hk]
      · simp only [findSection, hn, if_false, if_neg hn] at h
        have hrest := addEntry_none_of_dup rest sec k v ln sd h hk
        simp [addEntry, hn, hrest]

/-- C3: a non-continuation key-value line splits at the positionally
leftmost occurrence of either separator character: whenever index i is
the first position of the line holding an equals sign or a colon, the
classifier emits a key-value record whose key is the trimmed text
before i and whose value is the trimmed text after i, so later
occurrences of either separator stay inside the value; concretely the
line value=xyz:5 gives key value with value xyz:5, and value:y=5 gives
key value with value y=5. -/
theorem keyValue_split_at_leftmost_separator :
    (∀ (path : String) (lineno i : Nat) (cur : Option String) (s : List Char),
       s.headD ' ' ≠ '[' → i < s.length →
       isSep (s.getD i ' ') = true →
       (∀ j, j < i → isSep (s.getD j ' ') = false) →
       classifyLine path lineno cur s =
         Except.ok (LineRecord.keyValue lineno cur
           ((strip (s.take i)).asString) ((strip (s.drop (i + 1))).asString), cur)) ∧
    parseTokens "sample" "value=xyz:5" =
      Except.ok [LineRecord.keyValue 0 none "value" "xyz:5"] ∧
    parseTokens "sample" "value:y=5" =
      Except.ok [LineRecord.keyValue 0 none "value" "y=5"] := by
  refine ⟨?_, rfl, rfl⟩
  intro path lineno i cur s hhead hi hp hmin
  have hfind : findSepIdx s = some i := findSepIdx_eq_some s i hi hp hmin
  unfold classifyLine
  rw [if_neg hhead, hfind]

/-- C3 witness: on the concrete line a=b the separator sits at index
one and the classifier returns the key a and the value b. -/
theorem keyValue_split_at_leftmost_separator_witness :
    classifyLine "p" 0 none ['a', '=', 'b'] =
      Except.ok (LineRecord.keyValue 0 none "a" "b", none) :=
  keyValue_split_at_leftmost_separator.1 "p" 0 1 none ['a', '=', 'b']
    (by decide) (by decide) (by decide) (by decide)

/-- C4: a nonempty line opening with whitespace that follows a
key-value record is folded into that record: the stripped content is
appended to the stored value, separated by a single newline when the
stored value is nonempty, no new record is produced, and the recorded
line number of the record stays the line of the first token of the
key; concretely both indentation depths of the two-line inputs with
key names give the single record with value Alice newline Bob at line
zero. -/
theorem continuation_appends_with_newline :
    (∀ (path : String) (lineno : Nat) (st : TokState) (l : List Char)
       (ln : Nat) (sec : Option String) (k v : String),
       startsWithSpace l = true → lineContent l ≠ [] →
       st.records.getLast? = some (LineRecord.keyValue ln sec k v) →
       tokStep path lineno st l = Except.ok ⟨st.records.dropLast ++
         [LineRecord.keyValue ln sec k
           (if v = "" then (strip (lineContent l)).asString
            else v ++ "\n" ++ (strip (lineContent l)).asString)], st.cur⟩) ∧
    parseTokens "sample" "names =\n Alice\n Bob" =
      Except.ok [LineRecord.keyValue 0 none "names" "Alice\nBob"] ∧
    parseTokens "sample" "names = Alice\n        Bob" =
      Except.ok [LineRecord.keyValue 0 none "names" "Alice\nBob"] := by
  refine ⟨?_, rfl, rfl⟩
  intro path lineno st l ln sec k v hws hc hlast
  unfold tokStep
  rw [if_neg hc, if_pos hws, hlast]

/-- C4 witness: appending the continuation line holding x to a state
whose last record carries the value v produces the value v newline x,
in place, with no new record. -/
theorem continuation_appends_with_newline_witness :
    tokStep "p" 1 ⟨[LineRecord.keyValue 0 none "k" "v"], none⟩ [' ', 'x'] =
      Except.ok ⟨[LineRecord.keyValue 0 none "k" "v\nx"], none⟩ :=
  continuation_appends_with_newline.1 "p" 1
    ⟨[LineRecord.keyValue 0 none "k" "v"], none⟩ [' ', 'x'] 0 none "k" "v"
    rfl (by decide) rfl

/-- C5: a nonempty line opening with whitespace fails with a parse
error carrying the zero-based number of that physical line whenever no
record was emitted yet or the last emitted record is a section header;
concretely the one-line input holding only a continuation fails at
line zero, and a continuation directly after a header fails at line
one. -/
theorem continuation_without_key_fails :
    (∀ (path : String) (lineno : Nat) (st : TokState) (l : List Char),
       startsWithSpace l = true → lineContent l ≠ [] →
       (st.records = [] ∨
         ∃ ln name, st.records.getLast? = some (LineRecord.sectionStart ln name)) →
       tokStep path lineno st l =
         Except.error ⟨path, lineno, "unexpected value continuation"⟩) ∧
    parseTokens "sample" " Foo" =
      Except.error ⟨"sample", 0, "unexpected value continuation"⟩ ∧
    parseTokens "sample" "[section]\n Foo" =
      Except.error ⟨"sample", 1, "unexpected value continuation"⟩ := by
  refine ⟨?_, rfl, rfl⟩
  intro path lineno st l hws hc hdisj
  unfold tokStep
  rw [if_neg hc, if_pos hws]
  rcases hdisj with h | ⟨ln, name, h⟩
  · rw [h]
    rfl
  · rw [h]

/-- C5 witness: the continuation line holding F as the very first line
fails at line zero. -/
theorem continuation_without_key_fails_witness :
    tokStep "p" 0 ⟨[], none⟩ [' ', 'F'] =
      Except.error ⟨"p", 0, "unexpected value continuation"⟩ :=
  continuation_without_key_fails.1 "p" 0 ⟨[], none⟩ [' ', 'F']
    rfl (by decide) (Or.inl rfl)

/-- C6: a section header whose name already occurs among the built
sections fails with the message duplicate section at the line of the
repeated header, and a key already present in its section fails with
the message duplicate name at the line of the repeated key; concretely
the two-header input fails at line one with duplicate section and the
repeated-key input fails at line two with duplicate name, and no
document is produced in either case. -/
theorem duplicate_section_and_name_fail :
    (∀ (path : String) (secs : List SectionData) (ln : Nat) (name : String),
       secs.any (fun s => s.name = name) = true →
       buildStep path secs (LineRecord.sectionStart ln name) =
         Except.error ⟨path, ln, "duplicate section"⟩) ∧
    (∀ (path : String) (secs : List SectionData) (ln : Nat) (sec k v : String)
       (sd : SectionData),
       findSection secs sec = some sd → sd.hasKey k = true →
       buildStep path secs (LineRecord.keyValue ln (some sec) k v) =
         Except.error ⟨path, ln, "duplicate name"⟩) ∧
    iniConfigOf "x" "[section]\n[section]" =
      Except.error ⟨"x", 1, "duplicate section"⟩ ∧
    iniConfigOf "x" "[section]\nname = Alice\nname = bob" =
      Except.error ⟨"x", 2, "duplicate name"⟩ := by
  refine ⟨?_, ?_, rfl, rfl⟩
  · intro path secs ln name h
    simp [buildStep, h]
  · intro path secs ln sec k v sd hfind hk
    have hnone := addEntry_none_of_dup secs sec k v ln sd hfind hk
    simp [buildStep, hnone]

/-- C6 witness: a repeated header named s over a one-section state
fails with duplicate section at its line. -/
theorem duplicate_section_and_name_fail_witness :
    buildStep "p" [⟨"s", 0, []⟩] (LineRecord.sectionStart 1 "s") =
      Except.error ⟨"p", 1, "duplicate section"⟩ :=
  duplicate_section_and_name_fail.1 "p" [⟨"s", 0, []⟩] 1 "s" (by decide)

/-- C7 counterexample: on the document built from the five-line text
of the line query test, the stored zero-based header line number of
the first section is zero, yet the line query with that section name
and no key returns one, not zero, refuting the claim that the query
returns the zero-based header line number. -/
theorem lineof_not_zero_based :
    (iniConfigOf "x.ini" "[section]\nvalue = 1\n[section2]\n# comment\nvalue =2").map
        (fun d => d.lineof "section" none) = Except.ok (some 1) ∧
    (iniConfigOf "x.ini" "[section]\nvalue = 1\n[section2]\n# comment\nvalue =2").map
        (fun d => (d.sectionOf "section").map SectionData.lineno) = Except.ok (some 0) ∧
    (some 1 : Option Nat) ≠ some 0 :=
  ⟨rfl, rfl, by decide⟩

/-- C7 as amended: the line query returns the stored zero-based line
number plus one: with no key it returns the header line number of the
section plus one, with a key it returns the recorded line number of
that key plus one, it returns the not-found signal when the section,
or the key when one is given, is absent, and the section-scoped query
agrees with the document-level query; on the document built from the
test text the five queried values are none, one, three, two and
five. -/
theorem lineof_returns_one_based :
    (∀ (d : Document) (sec : String) (sd : SectionData) (k : String),
       d.sectionOf sec = some sd →
       d.lineof sec none = some (sd.lineno + 1) ∧
       d.lineof sec (some k) = (sd.lookup k).map (fun p => p.2 + 1) ∧
       d.lineof sec (some k) = sd.lineofKey k) ∧
    (∀ (d : Document) (sec : String) (key : Option String),
       d.sectionOf sec = none → d.lineof sec key = none) ∧
    (∀ (d : Document) (sec : String) (sd : SectionData) (k : String),
       d.sectionOf sec = some sd → sd.lookup k = none →
       d.lineof sec (some k) = none) ∧
    (iniConfigOf "x.ini" "[section]\nvalue = 1\n[section2]\n# comment\nvalue =2").map
        (fun d => (d.lineof "missing" none, d.lineof "section" none,
          d.lineof "section2" none, d.lineof "section" (some "value"),
          d.lineof "section2" (some "value"))) =
      Except.ok (none, some 1, some 3, some 2, some 5) := by
  refine ⟨?_, ?_, ?_, rfl⟩
  · intro d sec sd k h
    exact ⟨by simp [Document.lineof, h], by simp [Document.lineof, h],
      by simp [Document.lineof, SectionData.lineofKey, h]⟩
  · intro d sec key h
    simp [Document.lineof, h]
  · intro d sec sd k h hk
    simp [Document.lineof, h, hk]

/-- C7 witness: on a one-section document whose header sits at stored
line four, the line query with no key returns five. -/
theorem lineof_returns_one_based_witness :
    (Document.mk "x" [⟨"s", 4, [("k", "v", 7)]⟩]).lineof "s" none = some 5 :=
  (lineof_returns_one_based.1 (Document.mk "x" [⟨"s", 4, [("k", "v", 7)]⟩])
    "s" ⟨"s", 4, [("k", "v", 7)]⟩ "k" rfl).1

/-- C8: the constructor accepts exactly one of an explicit in-memory
text or a path to read: supplying both at once, supplying neither, or
supplying a non-string dynamic value as the in-memory text yields the
usage error of the distinct kind UsageError in the outer layer, before
any parsing, uniformly in the source name, the supplied text, the
path and the file contents. -/
theorem ctor_usage_errors :
    (∀ (name : String) (t : PyVal) (p : String) (rf : String → String),
       iniConfigCtor name (some t) (some p) rf = Except.error UsageError.typeError) ∧
    (∀ (name : String) (v : PyVal) (rf : String → String),
       (∀ s, v ≠ PyVal.str s) →
       iniConfigCtor name (some v) none rf = Except.error UsageError.typeError) ∧
    (∀ (name : String) (rf : String → String),
       iniConfigCtor name none none rf = Except.error UsageError.typeError) := by
  refine ⟨?_, ?_, ?_⟩
  · intro name t p rf
    cases t <;> rfl
  · intro name v rf h
    cases v with
    | str s => exact absurd rfl (h s)
    | int n => rfl
  · intro name rf
    rfl

/-- C8 witness: supplying the integer three as the in-memory text with
no path yields the usage error. -/
theorem ctor_usage_errors_witness :
    iniConfigCtor "x" (some (PyVal.int 3)) none (fun _ => "") =
      Except.error UsageError.typeError :=
  ctor_usage_errors.2.1 "x" (PyVal.int 3) (fun _ => "")
    (fun _ h => PyVal.noConfusion h)

/-- C9: when the key is absent from the section, or the section itself
is absent, the get query returns the supplied default unchanged, for
every conversion function, so the conversion is never invoked, and
with no default it returns the not-found signal; when the key is
present it returns the conversion applied to the stored string; on the
document built from the two-key test text, a missing key with default
one gives one, a missing key with no default gives none, and the
present key int converted by the string length gives one. -/
theorem get_default_unconverted :
    (∀ (d : Document) (sec key : String) (sd : SectionData),
       d.sectionOf sec = some sd → sd.lookup key = none →
       ∀ (α : Type) (default : Option α) (convert : String → α),
         d.get sec key default convert = default) ∧
    (∀ (d : Document) (sec key : String),
       d.sectionOf sec = none →
       ∀ (α : Type) (default : Option α) (convert : String → α),
         d.get sec key default convert = default) ∧
    (∀ (d : Document) (sec key : String) (sd : SectionData) (v : String) (ln : Nat),
       d.sectionOf sec = some sd → sd.lookup key = some (v, ln) →
       ∀ (α : Type) (default : Option α) (convert : String → α),
         d.get sec key default convert = some (convert v)) ∧
    (iniConfigOf "x" "[section]\nint = 1\nfloat = 1.1").map
        (fun d => (d.get "section" "missing" (some (1 : Nat)) String.length,
          d.get "section" "missing" (none : Option Nat) String.length,
          d.get "section" "int" (none : Option Nat) String.length)) =
      Except.ok (some 1, none, some 1) := by
  refine ⟨?_, ?_, ?_, rfl⟩
  · intro d sec key sd h hk α default convert
    simp [Document.get, h, hk]
  · intro d sec key h α default convert
    simp [Document.get, h]
  · intro d sec key sd v ln h hk α default convert
    simp [Document.get, h, hk]

/-- C9 witness: on a one-section document holding only the key int,
the get query at the missing key with default seven returns seven for
the length conversion. -/
theorem get_default_unconverted_witness :
    (Document.mk "x" [⟨"section", 0, [("int", "1", 1)]⟩]).get "section" "missing"
      (some (7 : Nat)) String.length = some 7 :=
  get_default_unconverted.1 (Document.mk "x" [⟨"section", 0, [("int", "1", 1)]⟩])
    "section" "missing" ⟨"section", 0, [("int", "1", 1)]⟩ rfl rfl Nat (some 7)
    String.length
